import Mathlib

/-!
Verification development for the carving engine of file-recover.py.

The source is a Python file-recovery tool.  The carving core consists of
the signature catalogue FILE_SIGNATURES, the chunked scanner
_carve_files_chunked, the dispatcher _carve_file_at_position and the
per-format extractors (_carve_jpg, _carve_png, _carve_pdf, _carve_mp4,
_carve_avi, _carve_zip_based, _carve_cfb, _carve_generic).

The embedding below models the source byte stream as a List Nat (one Nat
per byte, each < 256 in practice), the file handle as an explicit read
position threaded through every operation, and Python exceptions
(negative seek, short struct.unpack input) as explicit checks that make
the modelled function return none, exactly where the source catches the
exception and returns None.  Python while-loops are modelled with an
explicit fuel argument; where the source loop is proved non-terminating
the fuel-exhaustion marker witnesses that fact.  Logging, tqdm progress
bars and the on-disk output of carved files are not modelled: a carve is
recorded as the tuple (format tag, source offset handed to the carver,
carved length), which is the information the claims speak about.
-/

set_option maxRecDepth 40000

set_option maxHeartbeats 2000000

namespace FileRecover

/-- Python file_handle positioned read: seek to pos, read n bytes.
A short read past end of file returns only the available bytes. -/
def readAt (file : List Nat) (pos n : Nat) : List Nat :=
  (file.drop pos).take n

/-- Python bytes.find for a pattern: the least index at which the whole
pattern occurs in data, none when there is no occurrence. -/
def findSub : List Nat → List Nat → Option Nat
  | _, [] => some 0
  | [], _ :: _ => none
  | d :: ds, p :: ps =>
    if (d :: ds).take (p :: ps).length = p :: ps then some 0
    else (findSub ds (p :: ps)).map (fun k => k + 1)

/-- Proposition: the pattern pat occurs in data at index i (full fit). -/
abbrev matchAtP (data : List Nat) (i : Nat) (pat : List Nat) : Prop :=
  (data.drop i).take pat.length = pat

/-- struct.unpack of a big-endian u32 (source: struct.unpack with a
greater-than I format).  Callers check the length first, mirroring the
places where the source would raise on short input. -/
def u32BE (l : List Nat) : Nat :=
  match l with
  | [a, b, c, d] => ((a * 256 + b) * 256 + c) * 256 + d
  | _ => 0

/-- struct.unpack of a little-endian u32. -/
def u32LE (l : List Nat) : Nat :=
  match l with
  | [a, b, c, d] => ((d * 256 + c) * 256 + b) * 256 + a
  | _ => 0

/-- struct.unpack of a big-endian u64. -/
def u64BE (l : List Nat) : Nat :=
  match l with
  | [a, b, c, d, e, f, g, h] =>
    ((((((a * 256 + b) * 256 + c) * 256 + d) * 256 + e) * 256 + f) * 256
        + g) * 256 + h
  | _ => 0

/-- The file_type strings of FILE_SIGNATURES, as a closed enumeration.
sevenZ stands for the Python string with the digit seven and z. -/
inductive FType where
  | zip_based | cfb | pdf | jpg | png | gif | bmp | tiff
  | mp4 | avi | mkv | mov | flv | mp3 | wav | aac | flac
  | rar | rar5 | sevenZ | html | css | js | exe
deriving DecidableEq, Repr

/-- FILE_SIGNATURES from the source, in declaration order: magic bytes,
in-file offset of the magic, file type, maximum carve size. -/
def FILE_SIGNATURES : List (List Nat × Nat × FType × Nat) :=
  [ ([0x50, 0x4B, 0x03, 0x04], 0, .zip_based, 10000000),
    ([0xD0, 0xCF, 0x11, 0xE0], 0, .cfb, 50000000),
    ([0x25, 0x50, 0x44, 0x46], 0, .pdf, 100000000),
    ([0x50, 0x4B, 0x05, 0x06], 0, .zip_based, 10000000),
    ([0x50, 0x4B, 0x07, 0x08], 0, .zip_based, 10000000),
    ([0xFF, 0xD8, 0xFF], 0, .jpg, 30000000),
    ([0x89, 0x50, 0x4E, 0x47], 0, .png, 50000000),
    ([0x47, 0x49, 0x46, 0x38], 0, .gif, 10000000),
    ([0x42, 0x4D], 0, .bmp, 100000000),
    ([0x49, 0x49, 0x2A, 0x00], 0, .tiff, 100000000),
    ([0x4D, 0x4D, 0x00, 0x2A], 0, .tiff, 100000000),
    ([0x00, 0x00, 0x00, 0x18, 0x66, 0x74, 0x79, 0x70], 4, .mp4, 500000000),
    ([0x52, 0x49, 0x46, 0x46], 0, .avi, 500000000),
    ([0x1A, 0x45, 0xDF, 0xA3], 0, .mkv, 500000000),
    ([0x66, 0x74, 0x79, 0x70], 4, .mov, 500000000),
    ([0x46, 0x4C, 0x56, 0x01], 0, .flv, 100000000),
    ([0x49, 0x44, 0x33], 0, .mp3, 10000000),
    ([0xFF, 0xFB], 0, .mp3, 10000000),
    ([0x52, 0x49, 0x46, 0x46], 0, .wav, 100000000),
    ([0xFF, 0xF1], 0, .aac, 10000000),
    ([0x66, 0x4C, 0x61, 0x43], 0, .flac, 100000000),
    ([0x52, 0x61, 0x72, 0x21, 0x1A, 0x07, 0x00], 0, .rar, 100000000),
    ([0x52, 0x61, 0x72, 0x21, 0x1A, 0x07, 0x01, 0x00], 0, .rar5, 100000000),
    ([0x37, 0x7A, 0xBC, 0xAF, 0x27, 0x1C], 0, .sevenZ, 100000000),
    ([0x3C, 0x21, 0x44, 0x4F, 0x43, 0x54], 0, .html, 1000000),
    ([0x2F, 0x2A, 0x20, 0x43, 0x53, 0x53], 0, .css, 1000000),
    ([0x3C, 0x73, 0x63, 0x72, 0x69, 0x70], 0, .js, 1000000),
    ([0x4D, 0x5A], 0, .exe, 50000000) ]

/-- EXTENSION_MAP from the source: file type to output file extension. -/
def EXTENSION_MAP : FType → String
  | .zip_based => ".zip_or_office"
  | .cfb => ".cfb_file"
  | .pdf => ".pdf"
  | .jpg => ".jpg"
  | .png => ".png"
  | .gif => ".gif"
  | .bmp => ".bmp"
  | .tiff => ".tiff"
  | .mp4 => ".mp4"
  | .avi => ".avi"
  | .mkv => ".mkv"
  | .mov => ".mov"
  | .flv => ".flv"
  | .mp3 => ".mp3"
  | .wav => ".wav"
  | .aac => ".aac"
  | .flac => ".flac"
  | .rar => ".rar"
  | .rar5 => ".rar"
  | .sevenZ => ".7z"
  | .html => ".html"
  | .css => ".css"
  | .js => ".js"
  | .exe => ".exe"

/-- buffer_size of _carve_files_chunked: the maximum over the catalogue
of magic length plus magic offset, plus 1024. -/
def bufferSize : Nat :=
  (FILE_SIGNATURES.map (fun s => s.1.length + s.2.1)).foldl max 0 + 1024

/-- _carve_jpg: read one slice of min(8192, max_size) bytes from the
start position, return up to and including the first FF D9, else None.
Result: carved bytes (none models the Python None) and the file handle
position the carver leaves behind. -/
def carve_jpg (file : List Nat) (start maxSize : Nat) :
    Option (List Nat) × Nat :=
  let data := readAt file start (min 8192 maxSize)
  match findSub data [0xFF, 0xD9] with
  | some i =>
    let r := readAt file start (i + 2)
    (some r, start + r.length)
  | none => (none, start + data.length)

/-- _carve_png: read one slice of min(65536, max_size) bytes, return up
to the first IEND plus 12 bytes, else None. -/
def carve_png (file : List Nat) (start maxSize : Nat) :
    Option (List Nat) × Nat :=
  let data := readAt file start (min 65536 maxSize)
  match findSub data [0x49, 0x45, 0x4E, 0x44] with
  | some i =>
    let r := readAt file start (i + 12)
    (some r, start + r.length)
  | none => (none, start + data.length)

/-- _carve_pdf: read one slice of min(131072, max_size) bytes, return up
to and including the first occurrence of the five bytes of the
percent-percent-EOF marker, else None. -/
def carve_pdf (file : List Nat) (start maxSize : Nat) :
    Option (List Nat) × Nat :=
  let data := readAt file start (min 131072 maxSize)
  match findSub data [0x25, 0x25, 0x45, 0x4F, 0x46] with
  | some i =>
    let r := readAt file start (i + 5)
    (some r, start + r.length)
  | none => (none, start + data.length)

/-- Result of the _carve_mp4 box walk loop.  fuelOut marks that the
modelled loop did not finish within the given fuel (on such inputs the
Python loop never exits at all when the state repeats).  failed models
the struct.unpack exception on a short largesize read, carrying the
handle position; finished carries the final walk cursor. -/
inductive Mp4Step where
  | fuelOut
  | failed (handle : Nat)
  | finished (pos : Nat)
deriving DecidableEq, Repr

/-- The while-loop of _carve_mp4.  stop is start_pos + max_size.
Each iteration reads an 8-byte header at pos: size u32 BE then type.
size 0 breaks; size 1 reads an 8-byte largesize (raising on short read)
and advances by it; otherwise advance by size; an mdat box ends the walk
after advancing. -/
def mp4Loop : Nat → List Nat → Nat → Nat → Mp4Step
  | 0, _, _, _ => .fuelOut
  | fuel + 1, file, stop, pos =>
    if pos < stop then
      let header := readAt file pos 8
      if header.length < 8 then .finished pos
      else
        let size := u32BE (header.take 4)
        let boxType := header.drop 4
        if size = 0 then .finished pos
        else if size = 1 then
          let ext := readAt file (pos + 8) 8
          if ext.length < 8 then .failed (pos + 8 + ext.length)
          else if boxType = [0x6D, 0x64, 0x61, 0x74] then
            .finished (pos + u64BE ext)
          else mp4Loop fuel file stop (pos + u64BE ext)
        else if boxType = [0x6D, 0x64, 0x61, 0x74] then .finished (pos + size)
        else mp4Loop fuel file stop (pos + size)
    else .finished pos

/-- _carve_mp4: walk the box tree from start, then return the bytes from
start up to the final cursor.  Fuel maxSize + 1 covers every terminating
run (each iteration advances the cursor by at least two except on the
degenerate inputs where the source loops forever; there the model
returns none while the source hangs). -/
def carve_mp4 (file : List Nat) (start maxSize : Nat) :
    Option (List Nat) × Nat :=
  match mp4Loop (maxSize + 1) file (start + maxSize) start with
  | .fuelOut => (none, start)
  | .failed h => (none, h)
  | .finished pos =>
    let r := readAt file start (pos - start)
    (some r, start + r.length)

/-- The while-loop of _carve_avi.  stop is start_pos + max_size.  Each
iteration reads an 8-byte chunk header: id then size u32 LE.  A RIFF id
with size at least 4 reads the 4-byte form type and breaks unless it is
the AVI tag; every non-breaking path advances by size + 8.  Returns the
final cursor, none only on fuel exhaustion. -/
def aviLoop : Nat → List Nat → Nat → Nat → Option Nat
  | 0, _, _, _ => none
  | fuel + 1, file, stop, pos =>
    if pos < stop then
      let header := readAt file pos 8
      if header.length < 8 then some pos
      else
        let chunkId := header.take 4
        let chunkSize := u32LE (header.drop 4)
        if chunkId = [0x52, 0x49, 0x46, 0x46] ∧ 4 ≤ chunkSize then
          let formType := readAt file (pos + 8) 4
          if formType = [0x41, 0x56, 0x49, 0x20] then
            aviLoop fuel file stop (pos + chunkSize + 8)
          else some pos
        else aviLoop fuel file stop (pos + chunkSize + 8)
    else some pos

/-- _carve_avi: walk the RIFF chunks from start, then return the bytes
from start up to the final cursor (possibly zero bytes, the Python empty
bytes object).  Fuel maxSize + 1 suffices: each iteration advances the
cursor by at least 8. -/
def carve_avi (file : List Nat) (start maxSize : Nat) :
    Option (List Nat) × Nat :=
  match aviLoop (maxSize + 1) file (start + maxSize) start with
  | none => (none, start)
  | some pos =>
    let r := readAt file start (pos - start)
    (some r, start + r.length)

/-- _carve_zip_based: seek to start + max_size - 65536 (a negative target
raises, caught as None), read a 64 KiB window, locate the EOCD magic,
parse central directory size and offset (raising, hence None, when fewer
than 20 bytes follow the magic) and return the bytes from start up to
central_dir_offset + central_dir_size + 22. -/
def carve_zip_based (file : List Nat) (start maxSize : Nat) :
    Option (List Nat) × Nat :=
  let target : Int := (start : Int) + maxSize - 65536
  if target < 0 then (none, start)
  else
    let data := readAt file target.toNat 65536
    match findSub data [0x50, 0x4B, 0x05, 0x06] with
    | none => (none, target.toNat + data.length)
    | some i =>
      let eocd := (data.drop i).take 22
      if eocd.length < 20 then (none, target.toNat + data.length)
      else
        let centralDirSize := u32LE ((eocd.drop 12).take 4)
        let centralDirOffset := u32LE ((eocd.drop 16).take 4)
        let r := readAt file start (centralDirOffset + centralDirSize + 22)
        (some r, start + r.length)

/-- _carve_cfb: read 4096 bytes after skipping a 512-byte header; when
the probe window contains the ASCII text Root Entry or the full 8-byte
CFB magic, return max_size bytes from start, else None. -/
def carve_cfb (file : List Nat) (start maxSize : Nat) :
    Option (List Nat) × Nat :=
  let data := readAt file (start + 512) 4096
  if (findSub data [0x52, 0x6F, 0x6F, 0x74, 0x20, 0x45, 0x6E, 0x74,
        0x72, 0x79]).isSome
      ∨ (findSub data [0xD0, 0xCF, 0x11, 0xE0, 0xA1, 0xB1, 0x1A,
        0xE1]).isSome then
    let r := readAt file start maxSize
    (some r, start + r.length)
  else (none, start + 512 + data.length)

/-- _carve_generic: read max_size bytes from start. -/
def carve_generic (file : List Nat) (start maxSize : Nat) :
    Option (List Nat) × Nat :=
  let r := readAt file start maxSize
  (some r, start + r.length)

/-- _carve_file_at_position: seek to the computed file position (a
negative position raises, caught as None with the handle untouched) and
dispatch on the file type; every type without a dedicated branch,
including mov and wav, falls through to the generic carver. -/
def carveDispatch (file : List Nat) (handle : Nat) (filePos : Int)
    (ftype : FType) (maxSize : Nat) : Option (List Nat) × Nat :=
  if filePos < 0 then (none, handle)
  else
    let p := filePos.toNat
    match ftype with
    | .jpg => carve_jpg file p maxSize
    | .png => carve_png file p maxSize
    | .pdf => carve_pdf file p maxSize
    | .mp4 => carve_mp4 file p maxSize
    | .avi => carve_avi file p maxSize
    | .zip_based => carve_zip_based file p maxSize
    | .cfb => carve_cfb file p maxSize
    | _ => carve_generic file p maxSize

/-- Observable state of a _carve_files_chunked run: the reader handle
position, every carve attempt handed to the dispatcher (file type and
the start position the coordinator computed, recorded in dispatch
order), every emitted carve (file type, start position, carved length)
and recovered_count. -/
structure RunState where
  handle : Nat
  attempts : List (FType × Int)
  emitted : List (FType × Int × Nat)
  recovered : Nat
deriving DecidableEq, Repr

/-- The for-loop over FILE_SIGNATURES at one buffer position: try each
signature in declaration order; on a byte match compute
file_pos = position - len(buffer) + buffer_pos + magic_offset, record
the attempt, run the dispatcher, and accept the first attempt whose
carved data is non-empty (Python truthiness of bytes); a None or empty
result falls through to the next signature.  Returns the carved length
on acceptance, none when no signature is accepted at this position. -/
def trySignatures (file : List Nat) (position : Nat) (buffer : List Nat)
    (bp : Nat) (st : RunState) :
    List (List Nat × Nat × FType × Nat) → RunState × Option Nat
  | [] => (st, none)
  | (sig, off, ftype, maxSize) :: rest =>
    if bp + sig.length ≤ buffer.length ∧
        (buffer.drop bp).take sig.length = sig then
      let filePos : Int := (position : Int) - buffer.length + bp + off
      let pair := carveDispatch file st.handle filePos ftype maxSize
      let st1 : RunState :=
        { st with handle := pair.2,
                  attempts := st.attempts ++ [(ftype, filePos)] }
      match pair.1 with
      | some d =>
        if d.length ≠ 0 then
          ({ st1 with
              emitted := st1.emitted ++ [(ftype, filePos, d.length)],
              recovered := st1.recovered + 1 }, some d.length)
        else trySignatures file position buffer bp st1 rest
      | none => trySignatures file position buffer bp st1 rest
    else trySignatures file position buffer bp st rest

/-- The inner scan loop of _carve_files_chunked: while
buffer_pos < len(buffer) - 16, try the catalogue at buffer_pos and
advance by the carved length on acceptance, else by one. -/
def scanLoop : Nat → List Nat → Nat → List Nat → Nat → RunState → RunState
  | 0, _, _, _, _, st => st
  | fuel + 1, file, position, buffer, bp, st =>
    if bp < buffer.length - 16 then
      match trySignatures file position buffer bp st FILE_SIGNATURES with
      | (st1, some len) => scanLoop fuel file position buffer (bp + len) st1
      | (st1, none) => scanLoop fuel file position buffer (bp + 1) st1
    else st

/-- The outer chunk loop of _carve_files_chunked: while position is
before end of source, read min(chunk_size, size - position) bytes at the
current handle position (which carvers may have moved), stop on an empty
read, append to the buffer, keep only the last buffer_size bytes when
the buffer exceeds twice buffer_size, scan, and advance position by the
requested read size. -/
def outerLoop : Nat → List Nat → Nat → Nat → List Nat → RunState → RunState
  | 0, _, _, _, _, st => st
  | fuel + 1, file, chunkSize, position, buffer, st =>
    if position < file.length then
      let readSize := min chunkSize (file.length - position)
      let chunk := readAt file st.handle readSize
      let st1 : RunState := { st with handle := st.handle + chunk.length }
      if chunk = [] then st1
      else
        let buffer1 := buffer ++ chunk
        let buffer2 :=
          if bufferSize * 2 < buffer1.length then
            buffer1.drop (buffer1.length - bufferSize)
          else buffer1
        let st2 := scanLoop (buffer2.length + 1) file position buffer2 0 st1
        outerLoop fuel file chunkSize (position + readSize) buffer2 st2
    else st

/-- _carve_files_chunked run with no filters: scan the whole source.
Outer fuel length + 1 suffices: every iteration advances position by at
least one (or stops on an empty chunk). -/
def runCarve (file : List Nat) (chunkSize : Nat) : RunState :=
  outerLoop (file.length + 1) file chunkSize 0 [] ⟨0, [], [], 0⟩

/-! Concrete source streams used to settle the claims. -/

/-- An 18-byte source: 16 zero bytes, then the MP3 frame magic FF FB at
offset 16. -/
def file18 : List Nat := List.replicate 16 0 ++ [0xFF, 0xFB]

/-- A 100-byte source: the JPEG magic FF D8 FF at offset 35 and the EOI
marker FF D9 at offset 50, zeros elsewhere. -/
def fileA : List Nat :=
  List.replicate 35 0 ++ [0xFF, 0xD8, 0xFF] ++ List.replicate 12 0 ++
    [0xFF, 0xD9] ++ List.replicate 48 0

/-- A 100-byte source: the QuickTime magic ftyp at offset 40 (so the
container start per the spec is offset 36), zeros elsewhere. -/
def fileB : List Nat :=
  List.replicate 40 0 ++ [0x66, 0x74, 0x79, 0x70] ++ List.replicate 56 0

/-- A 100-byte source: at offset 5 a RIFF header with declared size 4
and form type XXXX (neither AVI nor WAVE), and at offset 35 another
RIFF magic; zeros elsewhere. -/
def fileD : List Nat :=
  List.replicate 5 0 ++ [0x52, 0x49, 0x46, 0x46] ++ [4, 0, 0, 0] ++
    [88, 88, 88, 88] ++ List.replicate 18 0 ++ [0x52, 0x49, 0x46, 0x46] ++
    List.replicate 61 0

/-- A 30-byte PDF window: the PDF magic, then the 5-byte EOF marker at
offsets 10 and 20. -/
def filePdfC : List Nat :=
  [0x25, 0x50, 0x44, 0x46] ++ List.replicate 6 0 ++
    [0x25, 0x25, 0x45, 0x4F, 0x46] ++ List.replicate 5 0 ++
    [0x25, 0x25, 0x45, 0x4F, 0x46] ++ List.replicate 5 0

/-- A 7-byte PDF window with a single EOF marker at offset 2. -/
def filePdfW : List Nat := [0, 0, 0x25, 0x25, 0x45, 0x4F, 0x46]

/-- A 12-byte RIFF stream whose declared size is 0, with junk where the
form type would sit: the source AVI walker skips the form-type check. -/
def fileRiffBad : List Nat :=
  [0x52, 0x49, 0x46, 0x46, 0, 0, 0, 0, 88, 88, 88, 88]

/-- A 12-byte RIFF stream with declared size 4 and form type WAVE. -/
def fileRiffWave : List Nat :=
  [0x52, 0x49, 0x46, 0x46, 4, 0, 0, 0, 0x57, 0x41, 0x56, 0x45]

/-- A 22-byte source that is exactly an empty ZIP archive: the EOCD
magic 50 4B 05 06 followed by 18 zero bytes. -/
def file22 : List Nat := [0x50, 0x4B, 0x05, 0x06] ++ List.replicate 18 0

/-- A 40-byte MP4 stream: a well-formed 24-byte ftyp box, then a box
with size field 1 and largesize 0 (zero progress, corrupt). -/
def fileC6 : List Nat :=
  [0, 0, 0, 0x18, 0x66, 0x74, 0x79, 0x70] ++ List.replicate 16 0 ++
    [0, 0, 0, 1, 0x66, 0x72, 0x65, 0x65] ++ List.replicate 8 0

/-- A 9002-byte JPEG stream: 9000 zero bytes then the EOI marker FF D9,
well inside the 30,000,000-byte JPEG ceiling but beyond the first
8 KiB slice. -/
def fileJ : List Nat := List.replicate 9000 0 ++ [0xFF, 0xD9]

/-! Helper lemmas characterising findSub (Python bytes.find). -/

theorem findSub_eq_none (p : Nat) (ps : List Nat) :
    ∀ data : List Nat, (∀ i, ¬ matchAtP data i (p :: ps)) →
      findSub data (p :: ps) = none := by
  intro data
  induction data with
  | nil => intro _; rfl
  | cons d ds ih =>
    intro h
    have hds : ∀ i, ¬ matchAtP ds i (p :: ps) := by
      intro i hm
      exact h (i + 1) (by simpa [matchAtP, List.drop_succ_cons] using hm)
    unfold findSub
    rw [if_neg (by simpa [matchAtP] using h 0), ih hds]
    rfl

theorem findSub_eq_some (p : Nat) (ps : List Nat) :
    ∀ (data : List Nat) (i : Nat), matchAtP data i (p :: ps) →
      (∀ j, j < i → ¬ matchAtP data j (p :: ps)) →
      findSub data (p :: ps) = some i := by
  intro data
  induction data with
  | nil =>
    intro i h1 _
    simp [matchAtP] at h1
  | cons d ds ih =>
    intro i h1 h2
    cases i with
    | zero =>
      unfold findSub
      rw [if_pos (by simpa [matchAtP] using h1)]
    | succ j =>
      unfold findSub
      rw [if_neg (by simpa [matchAtP] using h2 0 (Nat.succ_pos j)),
        ih j (by simpa [matchAtP, List.drop_succ_cons] using h1)
          (fun k hk => by
            have hkk := h2 (k + 1) (Nat.succ_lt_succ hk)
            simpa [matchAtP, List.drop_succ_cons] using hkk)]
      rfl

/-- C9: running the carving loop on an empty source (size 0) emits no
carves, makes no carve attempts and returns a recovered count of 0, for
every chunk size; the loop returns normally (the model is total here and
the source raises nothing on this path). -/
theorem c9_empty_source_no_carves :
    ∀ chunkSize : Nat, runCarve [] chunkSize = ⟨0, [], [], 0⟩ :=
  fun _ => rfl

/-- Witness for c9_empty_source_no_carves at the default 64 MiB chunk
size. -/
theorem c9_empty_source_no_carves_witness :
    runCarve [] 67108864 = ⟨0, [], [], 0⟩ :=
  c9_empty_source_no_carves 67108864

/-- C1: the scanner is not complete.  The catalogue holds the MP3 frame
signature FF FB, the 18-byte source file18 carries it at offset 16 and
no carve was ever emitted (so no prior carve covers offset 16), yet the
run makes no carve attempt at all: the inner loop only scans while
buffer_pos < len(buffer) - 16, so the match at offset 16 is never
tested and no candidate is yielded. -/
theorem c1_signature_offset_never_tested :
    ([0xFF, 0xFB], 0, FType.mp3, 10000000) ∈ FILE_SIGNATURES ∧
    readAt file18 16 2 = [0xFF, 0xFB] ∧
    (runCarve file18 67108864).attempts = [] ∧
    (runCarve file18 67108864).emitted = [] := by
  exact ⟨by decide, by decide, by decide, by decide⟩

/-- C5: the ZIP carver misses archives shorter than 64 KiB.  file22 is a
complete 22-byte empty ZIP archive starting with the EOCD magic, yet the
extractor seeks to start + max_size - 65536 = 9,934,464 (far past the
end of the source), reads nothing there and returns None instead of the
range [0, 22) that the mandated clamped trailer window would yield. -/
theorem c5_zip_short_archive_missed :
    readAt file22 0 4 = [0x50, 0x4B, 0x05, 0x06] ∧
    file22.length = 22 ∧
    (carve_zip_based file22 0 10000000).fst = none := by
  exact ⟨by decide, by decide, by decide⟩

/-- C4 counterexample: the PDF extractor does not target the last EOF
marker.  In filePdfC the marker occurs at offsets 10 and 20 of the read
window, so the claim requires the carve [start, 20 + 5) of length 25;
the code returns the first-marker carve of length 15. -/
theorem c4_counterexample_first_not_last :
    (carve_pdf filePdfC 0 100000000).fst = some (filePdfC.take 15) ∧
    matchAtP (readAt filePdfC 0 (min 131072 100000000)) 20
      [0x25, 0x25, 0x45, 0x4F, 0x46] ∧
    filePdfC.take 15 ≠ filePdfC.take 25 := by
  exact ⟨by decide, by decide, by decide⟩

/-- C4 amended: the PDF extractor reads up to 128 KiB from start,
locates the FIRST occurrence of the 5-byte EOF marker in that window
and returns the range [start, first_match + 5). -/
theorem c4_pdf_first_eof (file : List Nat) (start maxSize i : Nat)
    (h1 : matchAtP (readAt file start (min 131072 maxSize)) i
      [0x25, 0x25, 0x45, 0x4F, 0x46])
    (h2 : ∀ j, j < i → ¬ matchAtP (readAt file start (min 131072 maxSize)) j
      [0x25, 0x25, 0x45, 0x4F, 0x46]) :
    (carve_pdf file start maxSize).fst = some (readAt file start (i + 5)) := by
  simp only [carve_pdf]
  rw [findSub_eq_some 0x25 [0x25, 0x45, 0x4F, 0x46] _ i h1 h2]

/-- Witness for c4_pdf_first_eof at the 7-byte window filePdfW, whose
single EOF marker sits at offset 2. -/
theorem c4_pdf_first_eof_witness :
    matchAtP (readAt filePdfW 0 (min 131072 100000000)) 2
      [0x25, 0x25, 0x45, 0x4F, 0x46] ∧
    (carve_pdf filePdfW 0 100000000).fst = some (readAt filePdfW 0 7) :=
  ⟨by decide,
    c4_pdf_first_eof filePdfW 0 100000000 2 (by decide)
      (by intro j hj; interval_cases j <;> decide)⟩

/-- C8 counterexample: an Avi (RIFF) hit whose form type (bytes 8..12)
matches neither AVI nor WAVE can still produce a non-empty byte range.
In fileRiffBad the RIFF declared size is 0, so the source walker skips
the form-type check, advances by 8, stops at the short next header and
returns the first 8 bytes; the coordinator would emit them as a carve. -/
theorem c8_counterexample_form_not_checked :
    readAt fileRiffBad 8 4 = [88, 88, 88, 88] ∧
    ([88, 88, 88, 88] : List Nat) ≠ [0x41, 0x56, 0x49, 0x20] ∧
    ([88, 88, 88, 88] : List Nat) ≠ [0x57, 0x41, 0x56, 0x45] ∧
    (carve_avi fileRiffBad 0 500000000).fst =
      some [0x52, 0x49, 0x46, 0x46, 0, 0, 0, 0] := by
  exact ⟨by decide, by decide, by decide, by decide⟩

/-- C8 amended: the form-type check only runs when the RIFF header reads
fully and its declared u32 LE size is at least 4; in that case any form
type other than AVI makes the extractor return an empty byte range
(Python empty bytes, falsy), so the coordinator emits no carve for the
hit.  When the declared size is below 4 the form type is never checked
and a non-empty carve may be produced. -/
theorem c8_riff_form_reject (file : List Nat) (start maxSize : Nat)
    (hm : 0 < maxSize)
    (hlen : (readAt file start 8).length = 8)
    (hid : (readAt file start 8).take 4 = [0x52, 0x49, 0x46, 0x46])
    (hsz : 4 ≤ u32LE ((readAt file start 8).drop 4))
    (hform : readAt file (start + 8) 4 ≠ [0x41, 0x56, 0x49, 0x20]) :
    (carve_avi file start maxSize).fst = some [] := by
  simp only [carve_avi, aviLoop]
  rw [if_pos (Nat.lt_add_of_pos_right hm),
    if_neg (by omega : ¬ (readAt file start 8).length < 8),
    if_pos ⟨hid, hsz⟩, if_neg hform]
  simp [readAt]

/-- Witness for c8_riff_form_reject: a 12-byte RIFF stream with declared
size 4 and form type WAVE yields the empty range. -/
theorem c8_riff_form_reject_witness :
    0 < 500000000 ∧
    (readAt fileRiffWave 0 8).length = 8 ∧
    (readAt fileRiffWave 0 8).take 4 = [0x52, 0x49, 0x46, 0x46] ∧
    4 ≤ u32LE ((readAt fileRiffWave 0 8).drop 4) ∧
    readAt fileRiffWave 8 4 ≠ [0x41, 0x56, 0x49, 0x20] ∧
    (carve_avi fileRiffWave 0 500000000).fst = some [] :=
  ⟨by decide, by decide, by decide, by decide, by decide,
    c8_riff_form_reject fileRiffWave 0 500000000 (by decide) (by decide)
      (by decide) (by decide) (by decide)⟩

/-- C10 counterexample: a carve dispatched as wav is emitted.  On fileD
the RIFF hit at offset 35 is first tried as avi; that carve returns the
empty bytes object (form type XXXX), which is falsy, so the for-loop
falls through to the wav entry with the identical magic, whose generic
carve succeeds: the run emits exactly one carve of type wav, and the
extension map sends wav to the .wav extension. -/
theorem c10_counterexample_wav_emitted :
    (runCarve fileD 30).emitted = [(FType.wav, 5, 95)] ∧
    EXTENSION_MAP FType.wav = ".wav" :=
  ⟨by decide, rfl⟩

/-- C10 amended: the avi entry (catalogue index 12) precedes the wav
entry (index 18) with the identical RIFF magic, and signatures are
tested in declaration order, but a match only wins when its carve
returns non-empty data; when the avi carve returns no data the same hit
falls through and is dispatched as wav, so wav is reachable: on fileD
the run attempts a wav carve at offset 5 and emits it. -/
theorem c10_wav_reachable :
    FILE_SIGNATURES.get? 12 =
      some ([0x52, 0x49, 0x46, 0x46], 0, FType.avi, 500000000) ∧
    FILE_SIGNATURES.get? 18 =
      some ([0x52, 0x49, 0x46, 0x46], 0, FType.wav, 100000000) ∧
    (FType.avi, (5 : Int)) ∈ (runCarve fileD 30).attempts ∧
    (FType.wav, (5 : Int)) ∈ (runCarve fileD 30).attempts ∧
    (FType.wav, ((5 : Int), 95)) ∈ (runCarve fileD 30).emitted := by
  exact ⟨by decide, by decide, by decide, by decide, by decide⟩

/-- C2: emitted carves can overlap.  On fileA (one JPEG spanning
[5, 52) after the miscomputed start) with chunk size 30, the inner scan
restarts at buffer position 0 on every chunk while the buffer keeps the
already-scanned bytes, so the very same JPEG range [5, 52) is emitted
twice and a third overlapping carve [25, 52) follows: consecutive
emitted carves violate start plus length at most next start. -/
theorem c2_overlapping_carves_emitted :
    (runCarve fileA 30).emitted =
      [(FType.jpg, 5, 47), (FType.jpg, 5, 47), (FType.jpg, 25, 27)] ∧
    ¬ ((5 : Int) + 47 ≤ 5) := by
  exact ⟨by decide, by decide⟩

/-- C3: the start handed to the extractor is not the window hit offset
minus magic_offset_in_file.  On fileB the mov magic ftyp sits at
absolute offset 40, so the claim requires the carve start 40 - 4 = 36;
the code computes position - len(buffer) + buffer_pos + offset, which
ADDS the magic offset and omits the chunk just read, handing 14. -/
theorem c3_magic_offset_added_not_subtracted :
    readAt fileB 40 4 = [0x66, 0x74, 0x79, 0x70] ∧
    (runCarve fileB 30).attempts = [(FType.mov, 14)] ∧
    (14 : Int) ≠ 40 - 4 := by
  exact ⟨by decide, by decide, by decide⟩

/-- C6: the MP4 box walker does not terminate on every input.  On
fileC6 the walk reaches offset 24, reads a box with size field 1 and
largesize 0, computes the next offset 24 + 0 = 24 equal to the walk
cursor, and — having no zero-progress check — repeats the identical
iteration: for every fuel the modelled loop exhausts its fuel, i.e. the
source loop at _carve_mp4 never exits on this stream instead of
stopping and returning unrecognised. -/
theorem c6_mp4_walker_nonterminating :
    ∀ fuel : Nat, mp4Loop fuel fileC6 500000000 0 = Mp4Step.fuelOut := by
  have h24 : ∀ fuel : Nat, mp4Loop fuel fileC6 500000000 24 = Mp4Step.fuelOut := by
    intro fuel
    induction fuel with
    | zero => rfl
    | succ k ih =>
      have hstep : mp4Loop (k + 1) fileC6 500000000 24 =
          mp4Loop k fileC6 500000000 24 := rfl
      rw [hstep, ih]
  intro fuel
  cases fuel with
  | zero => rfl
  | succ k =>
    have hstep : mp4Loop (k + 1) fileC6 500000000 0 =
        mp4Loop k fileC6 500000000 24 := rfl
    rw [hstep, h24 k]

theorem carve_jpg_find_none (file : List Nat) (start maxSize : Nat)
    (h : findSub (readAt file start (min 8192 maxSize)) [0xFF, 0xD9] = none) :
    (carve_jpg file start maxSize).fst = none := by
  simp only [carve_jpg]
  rw [h]

/-- Witness for c6_mp4_walker_nonterminating at fuel 5. -/
theorem c6_mp4_walker_nonterminating_witness :
    mp4Loop 5 fileC6 500000000 0 = Mp4Step.fuelOut :=
  c6_mp4_walker_nonterminating 5

/-- C7: the JPEG extractor does not scan up to the ceiling.  fileJ has
its EOI marker FF D9 at offset 9000, inside the 30,000,000-byte ceiling
but beyond the single min(8192, ceiling) slice the code reads, so the
extractor returns None (unrecognised) instead of the carve
[0, 9002) the claim requires. -/
theorem c7_jpg_eoi_beyond_first_slice :
    (carve_jpg fileJ 0 30000000).fst = none ∧
    fileJ.drop 9000 = [0xFF, 0xD9] ∧
    9000 + 2 ≤ 30000000 := by
  refine ⟨?_, ?_, by norm_num⟩
  · have hdata : readAt fileJ 0 (min 8192 30000000) =
        List.replicate 8192 (0 : Nat) := by
      show (fileJ.drop 0).take (min 8192 30000000) = _
      rw [List.drop_zero, show min 8192 30000000 = 8192 from rfl]
      unfold fileJ
      rw [List.take_append_of_le_length
          (by rw [List.length_replicate]; norm_num),
        List.take_replicate]
      norm_num
    have hnone : findSub (List.replicate 8192 (0 : Nat)) [0xFF, 0xD9] = none := by
      apply findSub_eq_none
      intro i hm
      have h255 : (0xFF : Nat) ∈
          List.replicate (([0xFF, 0xD9] : List Nat).length ⊓ (8192 - i))
            (0 : Nat) := by
        rw [matchAtP, List.drop_replicate, List.take_replicate] at hm
        rw [hm]
        exact List.mem_cons_self _ _
      have h0 := List.eq_of_mem_replicate h255
      norm_num at h0
    have hfind : findSub (readAt fileJ 0 (min 8192 30000000))
        [0xFF, 0xD9] = none := by
      rw [hdata]; exact hnone
    exact carve_jpg_find_none fileJ 0 30000000 hfind
  · unfold fileJ
    exact List.drop_left' (by rw [List.length_replicate])

end FileRecover
